import Mathlib

/-!
# Shallow embedding of the Mood API (`src/app.py`)

A Flask service for mood/sleep journaling.  The embedding models:

* the two ORM models `Usuario` (Account) and `Registro` (Entry) as Lean
  structures, with the database a pair of lists whose order is insertion
  order (SQLAlchemy assigns autoincrementing integer primary keys, so the
  invariant `WF` below says ids increase along the list);
* each route handler as a pure function from the database state (plus the
  request payload and, where the source consults external collaborators,
  an explicit model of the collaborator) to the new state and the HTTP
  response;
* the password hashing and token collaborators (`werkzeug.security`,
  `flask_jwt_extended`) by deterministic functions satisfying the
  contracts the routes rely on (`check_password_hash h s` holds exactly
  when `h` was produced by hashing `s`);
* calendar dates as natural numbers (day granularity, as in the source),
  with `date.today()` passed in explicitly as the parameter `hoje`;
* the declared SQLAlchemy column schema of both tables as data, so that
  claims about storage-level constraints can be settled by inspection.

Route handlers that the source lets crash on a missing account (it
dereferences the result of `Usuario.query.get` without a `None` check)
return `Option`: `none` is the uncaught `AttributeError`.
-/

/-- `Usuario` model (src/app.py lines 52-59): account record. -/
structure Usuario where
  id : Nat
  email : String
  senha_hash : String
  nome : String
  imagem_url : Option String
  imagem_public_id : Option String
  onboarding_required : Bool
  deriving Repr, DecidableEq

/-- `Registro` model (src/app.py lines 61-68): one mood/sleep entry.
`data` is a calendar date modelled as a day number. -/
structure Registro where
  id : Nat
  data : Nat
  humor : String
  como_se_sentiu : String
  descricao : Option String
  horas_sono : String
  id_usuario : Nat
  deriving Repr, DecidableEq

/-- Database state: both tables in insertion order plus the next
autoincrement primary-key values. -/
structure DB where
  usuarios : List Usuario
  registros : List Registro
  next_usuario_id : Nat
  next_registro_id : Nat
  deriving Repr, DecidableEq

def emptyDB : DB := ⟨[], [], 1, 1⟩

/-- Model of `werkzeug.security.generate_password_hash`: an injective
digest function (the routes only rely on `check_password_hash` agreeing
with it). -/
def generate_password_hash (senha : String) : String :=
  "pbkdf2$" ++ senha

/-- Model of `werkzeug.security.check_password_hash h s`: true exactly
when `h` is the stored digest of `s`. -/
def check_password_hash (h s : String) : Bool :=
  h == generate_password_hash s

/-- Model of a JWT issued by `flask_jwt_extended.create_access_token`:
the bound identity and the expiry in days. -/
structure Token where
  identity : String
  expires_days : Nat
  deriving Repr, DecidableEq

/-- Model of `create_access_token(identity, expires_delta)`. -/
def create_access_token (identity : String) (expires_days : Nat) : Token :=
  ⟨identity, expires_days⟩

/-- `Usuario.query.get(uid)`: primary-key lookup. -/
def findUsuario (db : DB) (uid : Nat) : Option Usuario :=
  db.usuarios.find? (fun u => u.id == uid)

/-- `Usuario.query.filter_by(email=email).first()`. -/
def findUsuarioPorEmail (db : DB) (email : String) : Option Usuario :=
  db.usuarios.find? (fun u => u.email == email)

/-- ORM attribute assignment followed by `db.session.commit()`: replace
the row whose primary key is `uid` by its update. -/
def updateUsuario (db : DB) (uid : Nat) (f : Usuario → Usuario) : DB :=
  { db with usuarios := db.usuarios.map (fun u => if u.id == uid then f u else u) }

/-- `/register` (src/app.py lines 75-89).  Returns the new state and the
HTTP status. -/
def register (db : DB) (email senha : String) : DB × Nat :=
  match findUsuarioPorEmail db email with
  | some _ => (db, 400)
  | none =>
      let novo_usuario : Usuario :=
        { id := db.next_usuario_id
          email := email
          senha_hash := generate_password_hash senha
          nome := "User"
          imagem_url := none
          imagem_public_id := none
          onboarding_required := true }
      ({ db with
          usuarios := db.usuarios ++ [novo_usuario]
          next_usuario_id := db.next_usuario_id + 1 }, 201)

/-- `/login` (src/app.py lines 92-107).  No state change; on success the
payload is the token, the account id and the onboarding flag. -/
def login (db : DB) (email senha : String) : Nat × Option (Token × Nat × Bool) :=
  match findUsuarioPorEmail db email with
  | none => (401, none)
  | some usuario =>
      if check_password_hash usuario.senha_hash senha then
        (200, some (create_access_token (toString usuario.id) 1,
                    usuario.id, usuario.onboarding_required))
      else
        (401, none)

/-- `/onboarding` (src/app.py lines 110-123).  The source never checks
`usuario` for `None`: on a missing account the attribute assignment
raises `AttributeError`, modelled as `none`.  The payload `nome` is
applied only when truthy (present and non-empty). -/
def onboarding (db : DB) (usuario_id : Nat) (nome : Option String) :
    Option (DB × Nat) :=
  match findUsuario db usuario_id with
  | none => none
  | some _ =>
      let db1 :=
        match nome with
        | some n =>
            if n ≠ "" then updateUsuario db usuario_id (fun u => { u with nome := n })
            else db
        | none => db
      some (updateUsuario db1 usuario_id
              (fun u => { u with onboarding_required := false }), 200)

/-- `/update-onboarding` (src/app.py lines 126-137): here the source does
check for a missing account and returns 404. -/
def update_onboarding (db : DB) (usuario_id : Nat) : DB × Nat :=
  match findUsuario db usuario_id with
  | none => (db, 404)
  | some _ =>
      (updateUsuario db usuario_id
         (fun u => { u with onboarding_required := false }), 200)

/-- `/check-onboarding` (src/app.py lines 203-212). -/
def check_onboarding (db : DB) (usuario_id : Nat) : Nat × Option Bool :=
  match findUsuario db usuario_id with
  | none => (404, none)
  | some usuario => (200, some usuario.onboarding_required)

/-- `/me` (src/app.py lines 215-228). -/
def get_usuario (db : DB) (usuario_id : Nat) :
    Nat × Option (String × String × String) :=
  match findUsuario db usuario_id with
  | none => (404, none)
  | some usuario =>
      (200, some (usuario.nome, usuario.email,
                  usuario.imagem_url.getD "/avatar-placeholder.svg"))

/-- Insertion step of an insertion sort by the boolean order `le`. -/
def insertBy (le : α → α → Bool) (x : α) : List α → List α
  | [] => [x]
  | y :: ys => if le x y then x :: y :: ys else y :: insertBy le x ys

/-- Insertion sort by the boolean order `le`; models the SQL `ORDER BY`
clauses of the source. -/
def sortBy (le : α → α → Bool) : List α → List α
  | [] => []
  | x :: xs => insertBy le x (sortBy le xs)

/-- `Registro.query.filter_by(id_usuario=uid)`. -/
def registrosConta (db : DB) (uid : Nat) : List Registro :=
  db.registros.filter (fun r => r.id_usuario == uid)

/-- `order_by(Registro.id.desc())`. -/
def sortByIdDesc (l : List Registro) : List Registro :=
  sortBy (fun a b => b.id ≤ a.id) l

/-- `order_by(Registro.data.desc())`. -/
def sortByDataDesc (l : List Registro) : List Registro :=
  sortBy (fun a b => b.data ≤ a.data) l

/-- `Registro.query.filter_by(id_usuario=uid, data=hoje).first()` is
non-empty. -/
def registroExistente (db : DB) (uid : Nat) (hoje : Nat) : Bool :=
  db.registros.any (fun r => r.id_usuario == uid && r.data == hoje)

/-- `/registro` (src/app.py lines 140-175).  `hoje` models
`date.today()`.  The source fetches `usuario` but never uses it, so the
handler does not depend on the account record.  After a successful
insert, rows of the account are loaded newest-first by id and every row
beyond the 11th is deleted. -/
def novoRegistro (db : DB) (usuario_id : Nat) (hoje : Nat)
    (humor como_se_sentiu : String) (descricao : Option String)
    (horas_sono : String) : Registro :=
  { id := db.next_registro_id
    data := hoje
    humor := humor
    como_se_sentiu := como_se_sentiu
    descricao := descricao
    horas_sono := horas_sono
    id_usuario := usuario_id }

/-- The state right after `db.session.add(novo_registro); db.session.commit()`,
before the retention trim. -/
def dbInserido (db : DB) (usuario_id : Nat) (hoje : Nat)
    (humor como_se_sentiu : String) (descricao : Option String)
    (horas_sono : String) : DB :=
  { db with
      registros := db.registros ++
        [novoRegistro db usuario_id hoje humor como_se_sentiu descricao horas_sono]
      next_registro_id := db.next_registro_id + 1 }

def registrar_dados (db : DB) (usuario_id : Nat) (hoje : Nat)
    (humor como_se_sentiu : String) (descricao : Option String)
    (horas_sono : String) : DB × Nat :=
  if registroExistente db usuario_id hoje then
    (db, 400)
  else
    let db1 : DB := dbInserido db usuario_id hoje humor como_se_sentiu descricao horas_sono
    let registros := sortByIdDesc (registrosConta db1 usuario_id)
    if registros.length > 11 then
      let registros_a_deletar := registros.drop 11
      ({ db1 with
          registros := db1.registros.filter
            (fun r => !(registros_a_deletar.any (fun d => d.id == r.id))) }, 201)
    else
      (db1, 201)

/-- The JSON view of one `Registro` built by `/registros`
(src/app.py lines 184-193); the date is serialized to text. -/
structure RegistroView where
  data : String
  humor : String
  como_se_sentiu : String
  descricao : Option String
  horas_sono : String
  deriving Repr, DecidableEq

/-- Model of `r.data.strftime("%Y-%m-%d")`: serialization of the day
number. -/
def formatData (d : Nat) : String := toString d

def viewOf (r : Registro) : RegistroView :=
  ⟨formatData r.data, r.humor, r.como_se_sentiu, r.descricao, r.horas_sono⟩

/-- `/registros` (src/app.py lines 178-195): the account's rows ordered
by date descending, limited to 11, mapped to views and reversed.  A pure
read: no state change. -/
def obter_registros (db : DB) (usuario_id : Nat) : List RegistroView :=
  let registros := (sortByDataDesc (registrosConta db usuario_id)).take 11
  (registros.map viewOf).reverse

/-- One call the handler makes to the Cloudinary asset host. -/
inductive AssetCall where
  | destroy (public_id : String)
  | upload
  deriving Repr, DecidableEq

/-- Model of the dictionary returned by `cloudinary.uploader.upload`. -/
structure UploadResult where
  secure_url : String
  public_id : String
  deriving Repr, DecidableEq

/-- `/upload-image` (src/app.py lines 231-262).  `imagem` is the
optional request file; `destroy_ok` is the outcome of the asset host's
delete call (the source wraps it in `try/except` and only prints on
failure, so the outcome is never consulted); `result` models the upload
response.  The ordered list of asset-host calls made is returned so the
call sequence is observable.  A missing account crashes
(`usuario.imagem_public_id` on `None`), modelled as `none` — but only
after the missing-file check, which the source performs first. -/
def upload_image (db : DB) (usuario_id : Nat) (imagem : Option String)
    (destroy_ok : Bool) (result : UploadResult) :
    Option (DB × Nat × List AssetCall) :=
  match imagem with
  | none => some (db, 400, [])
  | some _ =>
      match findUsuario db usuario_id with
      | none => none
      | some usuario =>
          let calls :=
            match usuario.imagem_public_id with
            | some pid => [AssetCall.destroy pid, AssetCall.upload]
            | none => [AssetCall.upload]
          some (updateUsuario db usuario_id
                  (fun u => { u with
                      imagem_url := some result.secure_url
                      imagem_public_id := some result.public_id }),
                200, calls)

/-- `/ja-registrou-hoje` (src/app.py lines 264-272): returns 200 and
`bool(registro)`; the account record is never consulted. -/
def ja_registrou_hoje (db : DB) (usuario_id : Nat) (hoje : Nat) : Nat × Bool :=
  (200, registroExistente db usuario_id hoje)

/-! ## Declared storage schema

The SQLAlchemy column declarations of both models, as data, so that
claims about storage-boundary constraints are decidable by inspection of
the schema itself. -/

/-- One `db.Column(...)` declaration. -/
structure Coluna where
  nome : String
  primary_key : Bool
  unique : Bool
  nullable : Bool
  deriving Repr, DecidableEq

/-- Columns of `Usuario` (src/app.py lines 52-59). -/
def usuarioColunas : List Coluna :=
  [⟨"id", true, false, true⟩,
   ⟨"email", false, true, false⟩,
   ⟨"senha_hash", false, false, false⟩,
   ⟨"nome", false, false, true⟩,
   ⟨"imagem_url", false, false, true⟩,
   ⟨"imagem_public_id", false, false, true⟩,
   ⟨"onboarding_required", false, false, true⟩]

/-- Columns of `Registro` (src/app.py lines 61-68). -/
def registroColunas : List Coluna :=
  [⟨"id", true, false, true⟩,
   ⟨"data", false, false, false⟩,
   ⟨"humor", false, false, false⟩,
   ⟨"como_se_sentiu", false, false, false⟩,
   ⟨"descricao", false, false, true⟩,
   ⟨"horas_sono", false, false, false⟩,
   ⟨"id_usuario", false, false, false⟩]

/-- Table-level constraints (`__table_args__` / `UniqueConstraint`)
declared for `Usuario`: none in the source. -/
def usuarioTableConstraints : List (List String) := []

/-- Table-level constraints declared for `Registro`: none in the
source. -/
def registroTableConstraints : List (List String) := []

/-- Whether the declared schema enforces uniqueness on the given column
set: either a declared composite constraint, or (for a single column)
`unique=True` on that column. -/
def uniqueOn (colunas : List Coluna) (tableConstraints : List (List String))
    (alvo : List String) : Bool :=
  tableConstraints.any (fun c => c == alvo) ||
  (match alvo with
   | [c] => colunas.any (fun col => col.nome == c && col.unique)
   | _ => false)

/-- A raw storage-level insert into the `registro` table, carrying
exactly the checks the declared schema imposes (none beyond the
autoincrement primary key): the store accepts any row. -/
def storeInsertRegistro (db : DB) (r : Registro) : DB :=
  { db with registros := db.registros ++ [r] }

/-- Modelled from the spec: the storage boundary the spec requires,
with a uniqueness constraint on (accountId, date) — the store itself
rejects a second entry for the same account and date. -/
def storeInsertRegistro_spec (db : DB) (r : Registro) : Option DB :=
  if db.registros.any (fun s => s.id_usuario == r.id_usuario && s.data == r.data) then
    none
  else
    some { db with registros := db.registros ++ [r] }

/-! ## Operations as a single step relation -/

/-- Every state-bearing operation of the service, with its request
payload. -/
inductive Op where
  | opRegister (email senha : String)
  | opLogin (email senha : String)
  | opOnboarding (uid : Nat) (nome : Option String)
  | opUpdateOnboarding (uid : Nat)
  | opCheckOnboarding (uid : Nat)
  | opGetUsuario (uid : Nat)
  | opRegistrar (uid : Nat) (hoje : Nat) (humor como_se_sentiu : String)
      (descricao : Option String) (horas_sono : String)
  | opObterRegistros (uid : Nat)
  | opUploadImage (uid : Nat) (imagem : Option String) (destroy_ok : Bool)
      (result : UploadResult)
  | opJaRegistrouHoje (uid : Nat) (hoje : Nat)

/-- The database state after one operation.  A handler that crashes
leaves the state unchanged (nothing was committed). -/
def applyOp (db : DB) : Op → DB
  | .opRegister e s => (register db e s).1
  | .opLogin _ _ => db
  | .opOnboarding uid nome =>
      match onboarding db uid nome with
      | some (db1, _) => db1
      | none => db
  | .opUpdateOnboarding uid => (update_onboarding db uid).1
  | .opCheckOnboarding _ => db
  | .opGetUsuario _ => db
  | .opRegistrar uid hoje h c d s => (registrar_dados db uid hoje h c d s).1
  | .opObterRegistros _ => db
  | .opUploadImage uid img ok res =>
      match upload_image db uid img ok res with
      | some (db1, _, _) => db1
      | none => db
  | .opJaRegistrouHoje _ _ => db

/-- Well-formedness maintained by the service: primary keys strictly
increase along each table (SQLAlchemy autoincrement) and stay below the
next value to be assigned. -/
def WF (db : DB) : Prop :=
  db.registros.Pairwise (fun a b => a.id < b.id) ∧
  ∀ r ∈ db.registros, r.id < db.next_registro_id

/-! ## Lemmas about the insertion sort -/

theorem mem_insertBy {le : α → α → Bool} {x a : α} {l : List α} :
    a ∈ insertBy le x l ↔ a = x ∨ a ∈ l := by
  induction l with
  | nil => simp [insertBy]
  | cons y ys ih =>
      by_cases h : le x y = true
      · simp [insertBy, h]
      · simp only [insertBy, if_neg h, List.mem_cons, ih]
        tauto

theorem mem_sortBy {le : α → α → Bool} {a : α} {l : List α} :
    a ∈ sortBy le l ↔ a ∈ l := by
  induction l with
  | nil => simp [sortBy]
  | cons y ys ih => simp [sortBy, mem_insertBy, ih]

theorem length_insertBy {le : α → α → Bool} (x : α) (l : List α) :
    (insertBy le x l).length = l.length + 1 := by
  induction l with
  | nil => rfl
  | cons y ys ih =>
      by_cases h : le x y = true
      · simp [insertBy, h]
      · simp [insertBy, h, ih]

theorem length_sortBy {le : α → α → Bool} (l : List α) :
    (sortBy le l).length = l.length := by
  induction l with
  | nil => rfl
  | cons y ys ih => simp [sortBy, length_insertBy, ih]

theorem insertBy_append {le : α → α → Bool} {x : α} {l : List α}
    (h : ∀ y ∈ l, le x y = false) : insertBy le x l = l ++ [x] := by
  induction l with
  | nil => rfl
  | cons y ys ih =>
      have hy : le x y = false := h y (List.mem_cons_self _ _)
      have ih' := ih fun z hz => h z (List.mem_cons_of_mem _ hz)
      simp [insertBy, hy, ih']

theorem insertBy_pairwise {le : α → α → Bool}
    (htot : ∀ a b, le a b = true ∨ le b a = true)
    (htrans : ∀ a b c, le a b = true → le b c = true → le a c = true)
    {x : α} {l : List α} (hl : l.Pairwise (fun a b => le a b = true)) :
    (insertBy le x l).Pairwise (fun a b => le a b = true) := by
  induction l with
  | nil => simp [insertBy]
  | cons y ys ih =>
      rcases hl with _ | ⟨hy, hys⟩
      by_cases h : le x y = true
      · simp only [insertBy, if_pos h]
        refine (List.pairwise_cons.2 ⟨?_, List.pairwise_cons.2 ⟨hy, hys⟩⟩)
        intro z hz
        rcases List.mem_cons.1 hz with rfl | hz
        · exact h
        · exact htrans x y z h (hy z hz)
      · simp only [insertBy, if_neg h]
        refine List.pairwise_cons.2 ⟨?_, ih hys⟩
        intro z hz
        rcases mem_insertBy.1 hz with rfl | hz
        · rcases htot y z with hyz | hzy
          · exact hyz
          · exact absurd hzy h
        · exact hy z hz

theorem sortBy_pairwise {le : α → α → Bool}
    (htot : ∀ a b, le a b = true ∨ le b a = true)
    (htrans : ∀ a b c, le a b = true → le b c = true → le a c = true)
    (l : List α) :
    (sortBy le l).Pairwise (fun a b => le a b = true) := by
  induction l with
  | nil => simp [sortBy]
  | cons y ys ih => exact insertBy_pairwise htot htrans ih

/-- Sorting a list whose ids already strictly increase by descending id
just reverses it. -/
theorem sortByIdDesc_of_pairwise {l : List Registro}
    (h : l.Pairwise (fun a b => a.id < b.id)) :
    sortByIdDesc l = l.reverse := by
  induction l with
  | nil => rfl
  | cons x xs ih =>
      rcases List.pairwise_cons.1 h with ⟨hx, hxs⟩
      show insertBy _ x (sortByIdDesc xs) = _
      rw [ih hxs, insertBy_append, List.reverse_cons]
      intro y hy
      have : x.id < y.id := hx y (List.mem_reverse.1 hy)
      simpa using Nat.not_le.2 this

theorem sortByDataDesc_pairwise (l : List Registro) :
    (sortByDataDesc l).Pairwise (fun a b => b.data ≤ a.data) := by
  have h := @sortBy_pairwise Registro (fun a b : Registro => b.data ≤ a.data)
    (fun a b => by simpa using Nat.le_total b.data a.data)
    (fun a b c hab hbc => by
      simp only [decide_eq_true_eq] at *
      exact le_trans hbc hab) l
  exact h.imp (fun hab => by simpa using hab)

theorem any_reverse {p : α → Bool} (l : List α) :
    l.reverse.any p = l.any p := by
  induction l with
  | nil => rfl
  | cons x xs ih => simp [List.any_append, ih, Bool.or_comm]

/-- Deleting from a duplicate-free list exactly the ids occurring in its
first `m` elements leaves its last elements. -/
theorem filter_not_mem_take {l : List Registro}
    (hdist : l.Pairwise (fun a b => a.id ≠ b.id)) (m : Nat) :
    l.filter (fun r => !((l.take m).any (fun d => d.id == r.id))) = l.drop m := by
  induction l generalizing m with
  | nil => simp
  | cons x xs ih =>
      rcases List.pairwise_cons.1 hdist with ⟨hx, hxs⟩
      cases m with
      | zero => simp
      | succ k =>
          have hxfalse :
              (!(((x :: xs).take (k + 1)).any (fun d => d.id == x.id))) = false := by
            simp [List.take_succ_cons]
          have hcongr : ∀ r ∈ xs,
              (!(((x :: xs).take (k + 1)).any (fun d => d.id == r.id))) =
              (!((xs.take k).any (fun d => d.id == r.id))) := by
            intro r hr
            have : (x.id == r.id) = false := by
              simpa using hx r hr
            simp [List.take_succ_cons, this]
          rw [List.filter_cons, hxfalse]
          simp only [Bool.false_eq_true, if_neg]
          rw [List.filter_congr hcongr, ih hxs k]
          simp

/-! ## Lemmas about account updates -/

theorem usuarios_updateUsuario (db : DB) (uid : Nat) (f : Usuario → Usuario) :
    (updateUsuario db uid f).usuarios =
      db.usuarios.map (fun u => if u.id == uid then f u else u) := rfl

theorem findUsuario_updateUsuario (db : DB) (uid uid' : Nat)
    (f : Usuario → Usuario) (hid : ∀ u, (f u).id = u.id) :
    findUsuario (updateUsuario db uid' f) uid =
      (findUsuario db uid).map (fun u => if u.id == uid' then f u else u) := by
  show (db.usuarios.map _).find? _ = _
  rw [List.find?_map]
  have hpred :
      ((fun u : Usuario => u.id == uid) ∘ fun u => if u.id == uid' then f u else u) =
        fun u : Usuario => u.id == uid := by
    funext u
    by_cases h : u.id == uid'
    · simp [Function.comp, h, hid]
    · simp [Function.comp, h]
  rw [hpred]
  rfl

theorem updateUsuario_comp (db : DB) (uid : Nat) (f g : Usuario → Usuario)
    (hid : ∀ u, (f u).id = u.id) :
    updateUsuario (updateUsuario db uid f) uid g =
      updateUsuario db uid (fun u => g (f u)) := by
  unfold updateUsuario
  simp only [List.map_map]
  congr 1
  apply List.map_congr_left
  intro u _
  by_cases h : u.id == uid
  · simp [Function.comp, h, hid]
  · simp [Function.comp, h]

/-! ## Lemmas about `registrar_dados` -/

theorem registrosConta_dbInserido (db : DB) (uid hoje : Nat)
    (humor cs : String) (d : Option String) (hs : String) :
    registrosConta (dbInserido db uid hoje humor cs d hs) uid =
      registrosConta db uid ++ [novoRegistro db uid hoje humor cs d hs] := by
  unfold registrosConta dbInserido
  simp [List.filter_append, novoRegistro]

theorem pairwise_dbInserido {db : DB} (hwf : WF db) (uid hoje : Nat)
    (humor cs : String) (d : Option String) (hs : String) :
    (dbInserido db uid hoje humor cs d hs).registros.Pairwise
      (fun a b => a.id < b.id) := by
  unfold dbInserido
  rw [List.pairwise_append]
  refine ⟨hwf.1, by simp, ?_⟩
  intro a ha b hb
  have hb' : b = novoRegistro db uid hoje humor cs d hs := by simpa using hb
  subst hb'
  exact hwf.2 a ha

/-- On the success path, the handler answers 201 and the account's rows
that remain are exactly the post-insertion rows with the oldest dropped
down to 11 (in stored order). -/
theorem registrar_dados_sucesso (db : DB) (uid hoje : Nat)
    (humor cs : String) (d : Option String) (hs : String) (hwf : WF db)
    (hnovo : registroExistente db uid hoje = false) :
    (registrar_dados db uid hoje humor cs d hs).2 = 201 ∧
    registrosConta (registrar_dados db uid hoje humor cs d hs).1 uid =
      (registrosConta (dbInserido db uid hoje humor cs d hs) uid).drop
        ((registrosConta (dbInserido db uid hoje humor cs d hs) uid).length - 11) := by
  have hpairL : (dbInserido db uid hoje humor cs d hs).registros.Pairwise
      (fun a b => a.id < b.id) := pairwise_dbInserido hwf uid hoje humor cs d hs
  have hpairf : (registrosConta (dbInserido db uid hoje humor cs d hs) uid).Pairwise
      (fun a b => a.id < b.id) :=
    List.Pairwise.sublist (List.filter_sublist _) hpairL
  set db1 := dbInserido db uid hoje humor cs d hs with hdb1
  set f := registrosConta db1 uid with hf
  have hsort : sortByIdDesc f = f.reverse := sortByIdDesc_of_pairwise hpairf
  have hlen : (sortByIdDesc f).length = f.length := length_sortBy f
  unfold registrar_dados
  rw [if_neg (by simp [hnovo])]
  simp only [← hdb1, ← hf]
  by_cases hgt : (sortByIdDesc f).length > 11
  · rw [if_pos hgt]
    refine ⟨rfl, ?_⟩
    have h11 : 11 ≤ f.length := le_of_lt (hlen ▸ hgt)
    -- the deleted rows are the oldest `f.length - 11` rows of the account
    have hdel : (sortByIdDesc f).drop 11 = (f.take (f.length - 11)).reverse := by
      rw [hsort, List.reverse_take, Nat.sub_sub_self h11]
    show (db1.registros.filter _).filter _ = _
    rw [List.filter_filter]
    have hcomm : ∀ r ∈ db1.registros,
        ((fun r : Registro => r.id_usuario == uid) r &&
          (fun r : Registro => !((sortByIdDesc f).drop 11).any (fun d => d.id == r.id)) r) =
        ((fun r : Registro => !((sortByIdDesc f).drop 11).any (fun d => d.id == r.id)) r &&
          (fun r : Registro => r.id_usuario == uid) r) := by
      intro r _
      exact Bool.and_comm _ _
    rw [List.filter_congr hcomm, ← List.filter_filter]
    have : db1.registros.filter (fun r => r.id_usuario == uid) = f := rfl
    rw [this]
    have hdist : f.Pairwise (fun a b => a.id ≠ b.id) :=
      hpairf.imp (fun hab => Nat.ne_of_lt hab)
    have hkeep : ∀ r ∈ f,
        ((fun r : Registro => !((sortByIdDesc f).drop 11).any (fun d => d.id == r.id)) r) =
        ((fun r : Registro => !((f.take (f.length - 11)).any (fun d => d.id == r.id)) ) r) := by
      intro r _
      simp only [hdel, any_reverse]
    rw [List.filter_congr hkeep]
    exact filter_not_mem_take hdist (f.length - 11)
  · rw [if_neg hgt]
    refine ⟨rfl, ?_⟩
    have hle : f.length ≤ 11 := hlen ▸ Nat.le_of_not_lt hgt
    have h0 : f.length - 11 = 0 := by omega
    rw [h0, List.drop_zero]

theorem register_existing_email (db : DB) (email senha : String)
    (h : findUsuarioPorEmail db email ≠ none) :
    register db email senha = (db, 400) := by
  unfold register
  cases hfind : findUsuarioPorEmail db email with
  | none => exact absurd hfind h
  | some u => simp

theorem register_novo_email (db : DB) (email senha : String)
    (h : findUsuarioPorEmail db email = none) :
    register db email senha =
      ({ db with
          usuarios := db.usuarios ++
            [⟨db.next_usuario_id, email, generate_password_hash senha,
              "User", none, none, true⟩]
          next_usuario_id := db.next_usuario_id + 1 }, 201) := by
  unfold register
  rw [h]

/-- Accounts are untouched by `registrar_dados`. -/
theorem usuarios_registrar_dados (db : DB) (uid hoje : Nat)
    (humor cs : String) (d : Option String) (hs : String) :
    ((registrar_dados db uid hoje humor cs d hs).1).usuarios = db.usuarios := by
  unfold registrar_dados
  by_cases h : registroExistente db uid hoje
  · rw [if_pos h]
  · rw [if_neg h]
    dsimp only
    split <;> rfl

theorem mem_updateUsuario {db : DB} {uid : Nat} {f : Usuario → Usuario}
    {u' : Usuario} (h : u' ∈ (updateUsuario db uid f).usuarios) :
    ∃ u ∈ db.usuarios, u' = if u.id == uid then f u else u := by
  obtain ⟨u, hu, hshape⟩ := List.mem_map.1 h
  exact ⟨u, hu, hshape.symm⟩

/-- All accounts with the given id have completed onboarding. -/
def flagFalseConta (db : DB) (uid : Nat) : Prop :=
  ∀ u ∈ db.usuarios, u.id = uid → u.onboarding_required = false

/-- An update that either forces the flag to `false` or leaves both the
flag and the id alone preserves `flagFalseConta`. -/
theorem flagFalseConta_updateUsuario {db : DB} {uid : Nat} (uid' : Nat)
    (g : Usuario → Usuario) (hall : flagFalseConta db uid)
    (hg : ∀ u, (g u).onboarding_required = false ∨
      ((g u).onboarding_required = u.onboarding_required ∧ (g u).id = u.id)) :
    flagFalseConta (updateUsuario db uid' g) uid := by
  intro u' hu' hid'
  obtain ⟨u, hu, hshape⟩ := mem_updateUsuario hu'
  by_cases h : (u.id == uid') = true
  · rw [if_pos h] at hshape
    rcases hg u with hfalse | ⟨hpres, hid⟩
    · rw [hshape]
      exact hfalse
    · rw [hshape, hpres]
      refine hall u hu ?_
      rw [← hid, ← hshape, hid']
  · rw [if_neg h] at hshape
    rw [hshape]
    exact hall u hu (hshape ▸ hid')

/-- Forcing the flag to `false` on every account with the given id
establishes `flagFalseConta` at that id. -/
theorem flagFalseConta_of_setFalse (db : DB) (uid : Nat)
    (g : Usuario → Usuario) (hg : ∀ u, (g u).onboarding_required = false) :
    flagFalseConta (updateUsuario db uid g) uid := by
  intro u' hu' hid'
  obtain ⟨u, hu, hshape⟩ := mem_updateUsuario hu'
  by_cases h : (u.id == uid) = true
  · rw [if_pos h] at hshape
    rw [hshape]
    exact hg u
  · rw [if_neg h] at hshape
    exfalso
    have huid : u.id = uid := by rw [← hshape]; exact hid'
    exact h (by simpa using huid)

theorem onboarding_of_find {db : DB} {uid : Nat} {u : Usuario}
    (nome : Option String) (h : findUsuario db uid = some u) :
    onboarding db uid nome =
      some (updateUsuario
        (match nome with
         | some n =>
             if n ≠ "" then updateUsuario db uid (fun v => { v with nome := n })
             else db
         | none => db) uid
        (fun v => { v with onboarding_required := false }), 200) := by
  unfold onboarding
  rw [h]

theorem update_onboarding_of_find {db : DB} {uid : Nat} {u : Usuario}
    (h : findUsuario db uid = some u) :
    update_onboarding db uid =
      (updateUsuario db uid (fun v => { v with onboarding_required := false }), 200) := by
  unfold update_onboarding
  rw [h]

/-! ## Claim theorems -/

/-- C1: for every account, after a successful `recordToday` at most 11
entries remain for that account; and whenever more than 11 existed right
after the insertion, the survivors are exactly the 11 most recently
inserted ones ordered by identifier (the handler keeps the first 11 of
the id-descending ordering; in stored insertion order that is its
reverse) — the ordering is by id, not by date value. -/
theorem C1_retention_by_insertion_order (db : DB) (uid hoje : Nat)
    (humor cs : String) (d : Option String) (hs : String) (hwf : WF db)
    (hnovo : registroExistente db uid hoje = false) :
    (registrosConta (registrar_dados db uid hoje humor cs d hs).1 uid).length ≤ 11 ∧
    (11 < (registrosConta (dbInserido db uid hoje humor cs d hs) uid).length →
      registrosConta (registrar_dados db uid hoje humor cs d hs).1 uid =
        ((sortByIdDesc (registrosConta (dbInserido db uid hoje humor cs d hs) uid)).take
          11).reverse) := by
  obtain ⟨-, hchar⟩ := registrar_dados_sucesso db uid hoje humor cs d hs hwf hnovo
  have hpairf : (registrosConta (dbInserido db uid hoje humor cs d hs) uid).Pairwise
      (fun a b => a.id < b.id) :=
    List.Pairwise.sublist (List.filter_sublist _)
      (pairwise_dbInserido hwf uid hoje humor cs d hs)
  set f := registrosConta (dbInserido db uid hoje humor cs d hs) uid with hf
  have hsort : sortByIdDesc f = f.reverse := sortByIdDesc_of_pairwise hpairf
  constructor
  · rw [hchar, List.length_drop]
    omega
  · intro _
    rw [hchar, hsort, List.take_reverse, List.reverse_reverse]

/-- Witness for C1: a database holding 11 entries for account 1 (ids 1-11);
recording a 12th leaves exactly the entries with ids 2-12. -/
theorem C1_retention_by_insertion_order_witness :
    (registrosConta (registrar_dados
        ⟨[], (List.range 11).map (fun i => ⟨i + 1, i + 1, "m", "f", none, "7", 1⟩), 1, 12⟩
        1 12 "m" "f" none "7").1 1).length ≤ 11 ∧
    (11 < (registrosConta (dbInserido
        ⟨[], (List.range 11).map (fun i => ⟨i + 1, i + 1, "m", "f", none, "7", 1⟩), 1, 12⟩
        1 12 "m" "f" none "7") 1).length →
      registrosConta (registrar_dados
        ⟨[], (List.range 11).map (fun i => ⟨i + 1, i + 1, "m", "f", none, "7", 1⟩), 1, 12⟩
        1 12 "m" "f" none "7").1 1 =
        ((sortByIdDesc (registrosConta (dbInserido
            ⟨[], (List.range 11).map (fun i => ⟨i + 1, i + 1, "m", "f", none, "7", 1⟩), 1, 12⟩
            1 12 "m" "f" none "7") 1)).take 11).reverse) :=
  C1_retention_by_insertion_order _ 1 12 "m" "f" none "7"
    (by constructor <;> decide) (by decide)

/-- C4: `recordToday` answers Conflict (400, state unchanged) exactly when
an entry for (account, today) already exists, whatever the submitted field
values are; otherwise it answers 201 and the created entry — carrying the
given mood, feeling, notes and sleep hours — is present for the account. -/
theorem C4_conflict_iff_entry_exists (db : DB) (uid hoje : Nat)
    (humor cs : String) (d : Option String) (hs : String) :
    (registroExistente db uid hoje = true ↔
      ∃ r ∈ db.registros, r.id_usuario = uid ∧ r.data = hoje) ∧
    (registroExistente db uid hoje = true →
      registrar_dados db uid hoje humor cs d hs = (db, 400)) ∧
    (WF db → registroExistente db uid hoje = false →
      (registrar_dados db uid hoje humor cs d hs).2 = 201 ∧
      novoRegistro db uid hoje humor cs d hs ∈
        registrosConta (registrar_dados db uid hoje humor cs d hs).1 uid ∧
      (novoRegistro db uid hoje humor cs d hs).data = hoje ∧
      (novoRegistro db uid hoje humor cs d hs).id_usuario = uid ∧
      (novoRegistro db uid hoje humor cs d hs).humor = humor ∧
      (novoRegistro db uid hoje humor cs d hs).como_se_sentiu = cs ∧
      (novoRegistro db uid hoje humor cs d hs).descricao = d ∧
      (novoRegistro db uid hoje humor cs d hs).horas_sono = hs) := by
  refine ⟨?_, ?_, ?_⟩
  · simp [registroExistente, List.any_eq_true]
  · intro h
    unfold registrar_dados
    rw [if_pos h]
  · intro hwf hnovo
    obtain ⟨hstatus, hchar⟩ := registrar_dados_sucesso db uid hoje humor cs d hs hwf hnovo
    refine ⟨hstatus, ?_, rfl, rfl, rfl, rfl, rfl, rfl⟩
    rw [hchar, registrosConta_dbInserido]
    set g := registrosConta db uid with hg
    have hlen : (g ++ [novoRegistro db uid hoje humor cs d hs]).length = g.length + 1 := by
      simp
    rw [hlen, List.drop_append_of_le_length (by omega)]
    exact List.mem_append_right _ (List.mem_singleton_self _)

/-- Witness for C4: on a store holding an entry for (1, 5) the call
conflicts; on the empty store it creates the entry. -/
theorem C4_conflict_iff_entry_exists_witness :
    registrar_dados ⟨[], [⟨1, 5, "m", "f", none, "7", 1⟩], 1, 2⟩ 1 5 "x" "y" none "8" =
      (⟨[], [⟨1, 5, "m", "f", none, "7", 1⟩], 1, 2⟩, 400) ∧
    ((registrar_dados emptyDB 1 5 "x" "y" none "8").2 = 201 ∧
      novoRegistro emptyDB 1 5 "x" "y" none "8" ∈
        registrosConta (registrar_dados emptyDB 1 5 "x" "y" none "8").1 1) :=
  ⟨(C4_conflict_iff_entry_exists ⟨[], [⟨1, 5, "m", "f", none, "7", 1⟩], 1, 2⟩
      1 5 "x" "y" none "8").2.1 (by decide),
   ⟨((C4_conflict_iff_entry_exists emptyDB 1 5 "x" "y" none "8").2.2
      (by constructor <;> decide) (by decide)).1,
    ((C4_conflict_iff_entry_exists emptyDB 1 5 "x" "y" none "8").2.2
      (by constructor <;> decide) (by decide)).2.1⟩⟩

/-- C7: `register` answers Conflict (400, state unchanged) when an account
with that email exists; on success it appends a new account with the
hashed password, default display name "User", no image and
`onboarding_required = true`; and it preserves pairwise-distinct emails,
so no two accounts ever share an email. -/
theorem C7_register_conflict_and_defaults (db : DB) (email senha : String) :
    (findUsuarioPorEmail db email ≠ none → register db email senha = (db, 400)) ∧
    (findUsuarioPorEmail db email = none →
      register db email senha =
        ({ db with
            usuarios := db.usuarios ++
              [⟨db.next_usuario_id, email, generate_password_hash senha,
                "User", none, none, true⟩]
            next_usuario_id := db.next_usuario_id + 1 }, 201)) ∧
    (db.usuarios.Pairwise (fun a b => a.email ≠ b.email) →
      ((register db email senha).1).usuarios.Pairwise (fun a b => a.email ≠ b.email)) := by
  refine ⟨register_existing_email db email senha, register_novo_email db email senha, ?_⟩
  intro hdist
  cases hfind : findUsuarioPorEmail db email with
  | some u =>
      rw [register_existing_email db email senha (by rw [hfind]; exact fun h => by cases h)]
      exact hdist
  | none =>
      rw [register_novo_email db email senha hfind]
      simp only
      rw [List.pairwise_append]
      refine ⟨hdist, by simp, ?_⟩
      intro a ha b hb
      have hb' : b = ⟨db.next_usuario_id, email, generate_password_hash senha,
          "User", none, none, true⟩ := by simpa using hb
      subst hb'
      have := List.find?_eq_none.1 hfind a ha
      simpa using this

/-- Witness for C7: registering a taken email conflicts; registering a
fresh email appends the defaulted account; distinct emails are kept. -/
theorem C7_register_conflict_and_defaults_witness :
    (register ⟨[⟨1, "a@x.com", "h", "User", none, none, true⟩], [], 2, 1⟩ "a@x.com" "p"
      = (⟨[⟨1, "a@x.com", "h", "User", none, none, true⟩], [], 2, 1⟩, 400)) ∧
    (register emptyDB "a@x.com" "p" =
      ({ emptyDB with
          usuarios := emptyDB.usuarios ++
            [⟨emptyDB.next_usuario_id, "a@x.com", generate_password_hash "p",
              "User", none, none, true⟩]
          next_usuario_id := emptyDB.next_usuario_id + 1 }, 201)) ∧
    ((register emptyDB "a@x.com" "p").1).usuarios.Pairwise
      (fun a b => a.email ≠ b.email) :=
  ⟨(C7_register_conflict_and_defaults _ "a@x.com" "p").1 (by decide),
   (C7_register_conflict_and_defaults emptyDB "a@x.com" "p").2.1 (by decide),
   (C7_register_conflict_and_defaults emptyDB "a@x.com" "p").2.2 (by decide)⟩

/-- C8: logging in right after registering the same credentials succeeds
and yields the token bound to the new account's identifier with a one-day
expiry, together with the account id and the onboarding flag; logging in
with an email matching no account, or with a password failing
verification against the stored hash, answers 401. -/
theorem C8_login_roundtrip (db : DB) (email senha : String)
    (hnew : findUsuarioPorEmail db email = none) :
    login (register db email senha).1 email senha =
      (200, some (create_access_token (toString db.next_usuario_id) 1,
                  db.next_usuario_id, true)) ∧
    (∀ (db2 : DB) (e s : String), findUsuarioPorEmail db2 e = none →
      login db2 e s = (401, none)) ∧
    (∀ (db2 : DB) (e s : String) (u : Usuario), findUsuarioPorEmail db2 e = some u →
      check_password_hash u.senha_hash s = false → login db2 e s = (401, none)) := by
  refine ⟨?_, ?_, ?_⟩
  · rw [register_novo_email db email senha hnew]
    show login _ email senha = _
    unfold login findUsuarioPorEmail
    simp only [List.find?_append]
    rw [List.find?_eq_none.2 (by
      intro u hu
      have := List.find?_eq_none.1 hnew u hu
      simpa using this)]
    simp [check_password_hash]
  · intro db2 e s h
    unfold login
    rw [h]
  · intro db2 e s u hu hchk
    unfold login
    rw [hu]
    simp [hchk]

/-- Witness for C8: register then login on the empty store succeeds with
the 1-day token; unknown email and wrong password both answer 401. -/
theorem C8_login_roundtrip_witness :
    login (register emptyDB "a@x.com" "p").1 "a@x.com" "p" =
      (200, some (create_access_token (toString emptyDB.next_usuario_id) 1,
                  emptyDB.next_usuario_id, true)) ∧
    login emptyDB "b@x.com" "p" = (401, none) ∧
    login (register emptyDB "a@x.com" "p").1 "a@x.com" "wrong" = (401, none) := by
  have h := C8_login_roundtrip emptyDB "a@x.com" "p" (by decide)
  refine ⟨h.1, h.2.1 emptyDB "b@x.com" "p" (by decide), ?_⟩
  exact h.2.2 (register emptyDB "a@x.com" "p").1 "a@x.com" "wrong"
    ⟨1, "a@x.com", generate_password_hash "p", "User", none, none, true⟩
    (by decide) (by decide)

/-- C2: the declared `Registro` schema carries no uniqueness constraint on
(id_usuario, data) — the only schema-level uniqueness in the source is on
`Usuario.email` — so the raw store accepts a second row for the same
account and the same date (rows 1 and 2 below both persist), unlike the
storage boundary the spec requires, `storeInsertRegistro_spec`, which
rejects the duplicate. -/
theorem C2_no_storage_unique_constraint :
    uniqueOn registroColunas registroTableConstraints ["id_usuario", "data"] = false ∧
    uniqueOn usuarioColunas usuarioTableConstraints ["email"] = true ∧
    (storeInsertRegistro (storeInsertRegistro emptyDB ⟨1, 5, "m", "f", none, "7", 1⟩)
        ⟨2, 5, "m2", "f2", none, "8", 1⟩).registros =
      [⟨1, 5, "m", "f", none, "7", 1⟩, ⟨2, 5, "m2", "f2", none, "8", 1⟩] ∧
    storeInsertRegistro_spec (storeInsertRegistro emptyDB ⟨1, 5, "m", "f", none, "7", 1⟩)
        ⟨2, 5, "m2", "f2", none, "8", 1⟩ = none := by
  decide

/-- C3: for every missing account the `/onboarding` handler crashes (the
source dereferences the absent record, modelled as `none`) instead of
answering NotFound, while the sibling `/update-onboarding` handler does
answer 404 on the very same state. -/
theorem C3_onboarding_crashes_on_missing_account :
    (∀ (db : DB) (uid : Nat) (nome : Option String), findUsuario db uid = none →
      onboarding db uid nome = none) ∧
    onboarding emptyDB 1 (some "X") = none ∧
    update_onboarding emptyDB 1 = (emptyDB, 404) := by
  refine ⟨?_, by decide, by decide⟩
  intro db uid nome h
  unfold onboarding
  rw [h]

/-- Witness for C3: the crash and the 404 observed on the empty store. -/
theorem C3_onboarding_crashes_on_missing_account_witness :
    onboarding emptyDB 7 none = none ∧
    update_onboarding emptyDB 1 = (emptyDB, 404) :=
  ⟨(C3_onboarding_crashes_on_missing_account).1 emptyDB 7 none (by decide),
   (C3_onboarding_crashes_on_missing_account).2.2⟩

/-- C10: `/ja-registrou-hoje` never consults the account table — its
result is unchanged under any replacement of the accounts — always
answers 200 with a boolean, that boolean is exactly the existence of an
entry for (account, today), and it is false when no such entry exists. -/
theorem C10_ja_registrou_hoje_total (db : DB) (uid hoje : Nat)
    (us : List Usuario) :
    ja_registrou_hoje { db with usuarios := us } uid hoje =
      ja_registrou_hoje db uid hoje ∧
    (ja_registrou_hoje db uid hoje).1 = 200 ∧
    (ja_registrou_hoje db uid hoje).2 = registroExistente db uid hoje ∧
    ((∀ r ∈ db.registros, ¬(r.id_usuario = uid ∧ r.data = hoje)) →
      (ja_registrou_hoje db uid hoje).2 = false) := by
  refine ⟨rfl, rfl, rfl, ?_⟩
  intro h
  show registroExistente db uid hoje = false
  unfold registroExistente
  rw [List.any_eq_false]
  intro r hr
  have := h r hr
  simp only [Bool.and_eq_true, beq_iff_eq]
  tauto

/-- Witness for C10: on a store with no account record at all and no
entry, the handler still answers 200/false. -/
theorem C10_ja_registrou_hoje_total_witness :
    ja_registrou_hoje { emptyDB with usuarios := [] } 1 5 =
      ja_registrou_hoje emptyDB 1 5 ∧
    (ja_registrou_hoje emptyDB 1 5).1 = 200 ∧
    (ja_registrou_hoje emptyDB 1 5).2 = false :=
  ⟨(C10_ja_registrou_hoje_total emptyDB 1 5 []).1,
   (C10_ja_registrou_hoje_total emptyDB 1 5 []).2.1,
   (C10_ja_registrou_hoje_total emptyDB 1 5 []).2.2.2 (by decide)⟩

/-- C9: `/upload-image` answers 400 and does nothing when no file is
supplied; when the account has a prior public id the asset-host calls
are exactly a delete of the old id followed by the upload, the outcome of
the delete never changes the result (a failed delete is swallowed and
never blocks the new upload), and on success both `imagem_url` and
`imagem_public_id` of the account are updated together in the same
commit, so every subsequent lookup sees both new fields. -/
theorem C9_upload_image (db : DB) (uid : Nat) (res : UploadResult) :
    (∀ ok : Bool, upload_image db uid none ok res = some (db, 400, [])) ∧
    (∀ (img : String) (ok1 ok2 : Bool),
      upload_image db uid (some img) ok1 res = upload_image db uid (some img) ok2 res) ∧
    (∀ (img pid : String) (u : Usuario) (ok : Bool),
      findUsuario db uid = some u → u.imagem_public_id = some pid →
      upload_image db uid (some img) ok res =
        some (updateUsuario db uid
                (fun v => { v with
                    imagem_url := some res.secure_url
                    imagem_public_id := some res.public_id }),
              200, [AssetCall.destroy pid, AssetCall.upload])) ∧
    (∀ (img : String) (ok : Bool) (u : Usuario), findUsuario db uid = some u →
      ∃ calls, upload_image db uid (some img) ok res =
        some (updateUsuario db uid
                (fun v => { v with
                    imagem_url := some res.secure_url
                    imagem_public_id := some res.public_id }),
              200, calls) ∧
        ∀ u', findUsuario (updateUsuario db uid
                (fun v => { v with
                    imagem_url := some res.secure_url
                    imagem_public_id := some res.public_id })) uid = some u' →
          u'.imagem_url = some res.secure_url ∧
          u'.imagem_public_id = some res.public_id) := by
  have hview : ∀ u', findUsuario (updateUsuario db uid
      (fun v => { v with
          imagem_url := some res.secure_url
          imagem_public_id := some res.public_id })) uid = some u' →
      u'.imagem_url = some res.secure_url ∧
      u'.imagem_public_id = some res.public_id := by
    intro u' hu'
    rw [findUsuario_updateUsuario db uid uid
      (fun v => { v with
          imagem_url := some res.secure_url
          imagem_public_id := some res.public_id }) (fun v => rfl)] at hu'
    cases hfind : findUsuario db uid with
    | none => rw [hfind] at hu'; cases hu'
    | some u =>
        rw [hfind] at hu'
        have hfind' : db.usuarios.find? (fun v => v.id == uid) = some u := hfind
        have hpred0 := List.find?_some hfind'
        have hpred : (u.id == uid) = true := hpred0
        rw [Option.map_some', if_pos hpred] at hu'
        cases hu'
        exact ⟨rfl, rfl⟩
  refine ⟨fun ok => rfl, fun img ok1 ok2 => rfl, ?_, ?_⟩
  · intro img pid u ok hfind hpid
    unfold upload_image
    rw [hfind]
    dsimp only
    rw [hpid]
  · intro img ok u hfind
    unfold upload_image
    rw [hfind]
    dsimp only
    cases hpid : u.imagem_public_id with
    | none => exact ⟨[AssetCall.upload], rfl, hview⟩
    | some pid => exact ⟨[AssetCall.destroy pid, AssetCall.upload], rfl, hview⟩

/-- Witness for C9: on a one-account store with a prior image, both the
failing and the succeeding delete lead to the same successful
replacement, and the updated account carries both new fields. -/
theorem C9_upload_image_witness :
    upload_image ⟨[⟨1, "a@x.com", "h", "User", some "u0", some "p0", false⟩], [], 2, 1⟩
        1 none true ⟨"u1", "p1"⟩ =
      some (⟨[⟨1, "a@x.com", "h", "User", some "u0", some "p0", false⟩], [], 2, 1⟩, 400, []) ∧
    upload_image ⟨[⟨1, "a@x.com", "h", "User", some "u0", some "p0", false⟩], [], 2, 1⟩
        1 (some "img") false ⟨"u1", "p1"⟩ =
      upload_image ⟨[⟨1, "a@x.com", "h", "User", some "u0", some "p0", false⟩], [], 2, 1⟩
        1 (some "img") true ⟨"u1", "p1"⟩ ∧
    upload_image ⟨[⟨1, "a@x.com", "h", "User", some "u0", some "p0", false⟩], [], 2, 1⟩
        1 (some "img") false ⟨"u1", "p1"⟩ =
      some (updateUsuario ⟨[⟨1, "a@x.com", "h", "User", some "u0", some "p0", false⟩], [], 2, 1⟩ 1
              (fun v => { v with
                  imagem_url := some (UploadResult.mk "u1" "p1").secure_url
                  imagem_public_id := some (UploadResult.mk "u1" "p1").public_id }),
            200, [AssetCall.destroy "p0", AssetCall.upload]) :=
  ⟨(C9_upload_image _ 1 ⟨"u1", "p1"⟩).1 true,
   (C9_upload_image _ 1 ⟨"u1", "p1"⟩).2.1 "img" false true,
   (C9_upload_image _ 1 ⟨"u1", "p1"⟩).2.2.1 "img" "p0"
     ⟨1, "a@x.com", "h", "User", some "u0", some "p0", false⟩ false
     (by decide) (by decide)⟩

theorem onboarding_none {db : DB} {uid : Nat} (nome : Option String)
    (h : findUsuario db uid = none) : onboarding db uid nome = none := by
  unfold onboarding
  rw [h]

theorem update_onboarding_none {db : DB} {uid : Nat}
    (h : findUsuario db uid = none) : update_onboarding db uid = (db, 404) := by
  unfold update_onboarding
  rw [h]

theorem upload_image_none_user {db : DB} {uid : Nat} (img : String)
    (ok : Bool) (res : UploadResult) (h : findUsuario db uid = none) :
    upload_image db uid (some img) ok res = none := by
  unfold upload_image
  rw [h]

theorem upload_image_shape {db : DB} {uid : Nat} {u : Usuario} (img : String)
    (ok : Bool) (res : UploadResult) (hfind : findUsuario db uid = some u) :
    upload_image db uid (some img) ok res =
      some (updateUsuario db uid
              (fun v => { v with
                  imagem_url := some res.secure_url
                  imagem_public_id := some res.public_id }),
            200,
            match u.imagem_public_id with
            | some pid => [AssetCall.destroy pid, AssetCall.upload]
            | none => [AssetCall.upload]) := by
  unfold upload_image
  rw [hfind]

theorem findUsuario_after_update {db : DB} {uid : Nat} {u : Usuario}
    (f : Usuario → Usuario) (hid : ∀ v, (f v).id = v.id)
    (hfind : findUsuario db uid = some u) :
    findUsuario (updateUsuario db uid f) uid =
      some (if u.id == uid then f u else u) := by
  rw [findUsuario_updateUsuario db uid uid f hid, hfind, Option.map_some']

/-- C5: every account present after `register` was either already there or
carries `onboarding_required = true` (true at creation); both onboarding
operations succeed on an existing account with status 200 and leave every
record of that account with the flag `false`; no operation of the service
ever turns the flag of an existing account back to `true`; and repeating
either onboarding operation returns the same state again (idempotence). -/
theorem C5_onboarding_flag_state_machine :
    (∀ (db : DB) (email senha : String), ∀ u' ∈ ((register db email senha).1).usuarios,
        u' ∈ db.usuarios ∨ u'.onboarding_required = true) ∧
    (∀ (db : DB) (uid : Nat) (nome : Option String) (u : Usuario),
        findUsuario db uid = some u →
        ∃ db1, onboarding db uid nome = some (db1, 200) ∧ flagFalseConta db1 uid) ∧
    (∀ (db : DB) (uid : Nat) (u : Usuario), findUsuario db uid = some u →
        (update_onboarding db uid).2 = 200 ∧
        flagFalseConta (update_onboarding db uid).1 uid) ∧
    (∀ (db : DB) (op : Op) (uid : Nat),
        (∀ u ∈ db.usuarios, u.id < db.next_usuario_id) →
        (∃ u ∈ db.usuarios, u.id = uid) →
        flagFalseConta db uid → flagFalseConta (applyOp db op) uid) ∧
    (∀ (db db1 : DB) (uid : Nat) (nome : Option String),
        onboarding db uid nome = some (db1, 200) →
        onboarding db1 uid nome = some (db1, 200)) ∧
    (∀ (db db1 : DB) (uid : Nat),
        update_onboarding db uid = (db1, 200) →
        update_onboarding db1 uid = (db1, 200)) := by
  refine ⟨?_, ?_, ?_, ?_, ?_, ?_⟩
  · -- creation: the flag starts true
    intro db email senha u' hu'
    cases hfind : findUsuarioPorEmail db email with
    | some u =>
        rw [register_existing_email db email senha
          (by rw [hfind]; exact fun hh => Option.noConfusion hh)] at hu'
        exact Or.inl hu'
    | none =>
        rw [register_novo_email db email senha hfind] at hu'
        have hu2 : u' ∈ db.usuarios ++
            [(⟨db.next_usuario_id, email, generate_password_hash senha,
              "User", none, none, true⟩ : Usuario)] := hu'
        rcases List.mem_append.1 hu2 with h | h
        · exact Or.inl h
        · right
          have : u' = ⟨db.next_usuario_id, email, generate_password_hash senha,
              "User", none, none, true⟩ := by simpa using h
          rw [this]
  · -- completeOnboarding sets the flag false
    intro db uid nome u hfind
    rw [onboarding_of_find nome hfind]
    exact ⟨_, rfl, flagFalseConta_of_setFalse _ uid _ (fun v => rfl)⟩
  · -- markOnboardingDone sets the flag false
    intro db uid u hfind
    rw [update_onboarding_of_find hfind]
    exact ⟨rfl, flagFalseConta_of_setFalse _ uid _ (fun v => rfl)⟩
  · -- no operation resets the flag of an existing account
    intro db op uid hnext hex hall
    cases op with
    | opRegister e s =>
        show flagFalseConta (register db e s).1 uid
        cases hfind : findUsuarioPorEmail db e with
        | some u =>
            rw [register_existing_email db e s
              (by rw [hfind]; exact fun hh => Option.noConfusion hh)]
            exact hall
        | none =>
            rw [register_novo_email db e s hfind]
            intro u' hu' hid'
            have hu2 : u' ∈ db.usuarios ++
                [(⟨db.next_usuario_id, e, generate_password_hash s,
                  "User", none, none, true⟩ : Usuario)] := hu'
            rcases List.mem_append.1 hu2 with h | h
            · exact hall u' h hid'
            · exfalso
              have hshape : u' = ⟨db.next_usuario_id, e, generate_password_hash s,
                  "User", none, none, true⟩ := by simpa using h
              obtain ⟨w, hw, hwid⟩ := hex
              have hlt : w.id < db.next_usuario_id := hnext w hw
              rw [hshape] at hid'
              simp only at hid'
              omega
    | opLogin e s => exact hall
    | opOnboarding uid' nome =>
        show flagFalseConta
          (match onboarding db uid' nome with
           | some (db1, _) => db1
           | none => db) uid
        cases hfind : findUsuario db uid' with
        | none =>
            rw [onboarding_none nome hfind]
            exact hall
        | some u =>
            rw [onboarding_of_find nome hfind]
            refine flagFalseConta_updateUsuario uid' _ ?_ (fun v => Or.inl rfl)
            cases nome with
            | none => exact hall
            | some n =>
                dsimp only
                by_cases hn : n = ""
                · rw [if_neg (by simp [hn])]
                  exact hall
                · rw [if_pos hn]
                  exact flagFalseConta_updateUsuario uid' _ hall
                    (fun v => Or.inr ⟨rfl, rfl⟩)
    | opUpdateOnboarding uid' =>
        show flagFalseConta (update_onboarding db uid').1 uid
        cases hfind : findUsuario db uid' with
        | none =>
            rw [update_onboarding_none hfind]
            exact hall
        | some u =>
            rw [update_onboarding_of_find hfind]
            exact flagFalseConta_updateUsuario uid' _ hall (fun v => Or.inl rfl)
    | opCheckOnboarding uid' => exact hall
    | opGetUsuario uid' => exact hall
    | opRegistrar uid' hoje h c d s =>
        show flagFalseConta (registrar_dados db uid' hoje h c d s).1 uid
        intro u' hu' hid'
        rw [usuarios_registrar_dados] at hu'
        exact hall u' hu' hid'
    | opObterRegistros uid' => exact hall
    | opUploadImage uid' img ok res =>
        show flagFalseConta
          (match upload_image db uid' img ok res with
           | some (db1, _, _) => db1
           | none => db) uid
        cases img with
        | none => exact hall
        | some s =>
            cases hfind : findUsuario db uid' with
            | none =>
                rw [upload_image_none_user s ok res hfind]
                exact hall
            | some u =>
                rw [upload_image_shape s ok res hfind]
                exact flagFalseConta_updateUsuario uid' _ hall
                  (fun v => Or.inr ⟨rfl, rfl⟩)
    | opJaRegistrouHoje uid' hoje => exact hall
  · -- completeOnboarding is idempotent
    intro db db1 uid nome h
    cases hfind : findUsuario db uid with
    | none => rw [onboarding_none nome hfind] at h; cases h
    | some u =>
        rw [onboarding_of_find nome hfind] at h
        cases nome with
        | none =>
            injection h with h'
            injection h' with hdb hst
            subst hdb
            have hfind2 := findUsuario_after_update
              (fun v => { v with onboarding_required := false }) (fun v => rfl) hfind
            rw [onboarding_of_find none hfind2]
            rw [updateUsuario_comp db uid
              (fun v => { v with onboarding_required := false })
              (fun v => { v with onboarding_required := false }) (fun v => rfl)]
        | some n =>
            dsimp only at h
            by_cases hn : n = ""
            · subst hn
              rw [if_neg (by simp)] at h
              injection h with h'
              injection h' with hdb hst
              subst hdb
              have hfind2 := findUsuario_after_update
                (fun v => { v with onboarding_required := false }) (fun v => rfl) hfind
              rw [onboarding_of_find (some "") hfind2]
              dsimp only
              rw [if_neg (by simp)]
              rw [updateUsuario_comp db uid
                (fun v => { v with onboarding_required := false })
                (fun v => { v with onboarding_required := false }) (fun v => rfl)]
            · rw [if_pos hn] at h
              rw [updateUsuario_comp db uid (fun v => { v with nome := n })
                (fun v => { v with onboarding_required := false }) (fun v => rfl)] at h
              injection h with h'
              injection h' with hdb hst
              subst hdb
              have hfind2 := findUsuario_after_update
                (fun v => { v with nome := n, onboarding_required := false })
                (fun v => rfl) hfind
              have hfind2' : findUsuario (updateUsuario db uid
                  (fun v => { v with nome := n, onboarding_required := false })) uid =
                  some (if u.id == uid then
                    { u with nome := n, onboarding_required := false } else u) := hfind2
              rw [onboarding_of_find (some n) hfind2']
              dsimp only
              rw [if_pos hn]
              rw [updateUsuario_comp _ uid (fun v => { v with nome := n })
                (fun v => { v with onboarding_required := false }) (fun v => rfl)]
              rw [updateUsuario_comp db uid
                (fun v => { v with nome := n, onboarding_required := false })
                (fun v => { v with nome := n, onboarding_required := false })
                (fun v => rfl)]
  · -- markOnboardingDone is idempotent
    intro db db1 uid h
    cases hfind : findUsuario db uid with
    | none =>
        rw [update_onboarding_none hfind] at h
        injection h with hdb hst
        exact absurd hst (by decide)
    | some u =>
        rw [update_onboarding_of_find hfind] at h
        injection h with hdb hst
        subst hdb
        have hfind2 := findUsuario_after_update
          (fun v => { v with onboarding_required := false }) (fun v => rfl) hfind
        rw [update_onboarding_of_find hfind2]
        rw [updateUsuario_comp db uid
          (fun v => { v with onboarding_required := false })
          (fun v => { v with onboarding_required := false }) (fun v => rfl)]

/-- Witness for C5: on a one-account store, the freshly registered account
carries the flag true; both onboarding operations answer 200 and clear
the flag; a register step keeps the cleared flag cleared; and repeating
each onboarding operation returns the same state. -/
theorem C5_onboarding_flag_state_machine_witness :
    ((⟨1, "e", generate_password_hash "p", "User", none, none, true⟩ : Usuario) ∈
        emptyDB.usuarios ∨
      (⟨1, "e", generate_password_hash "p", "User", none, none, true⟩ :
        Usuario).onboarding_required = true) ∧
    (∃ db1, onboarding ⟨[⟨1, "e", "h", "User", none, none, true⟩], [], 2, 1⟩ 1
        (some "N") = some (db1, 200) ∧ flagFalseConta db1 1) ∧
    ((update_onboarding ⟨[⟨1, "e", "h", "User", none, none, true⟩], [], 2, 1⟩ 1).2 = 200 ∧
      flagFalseConta
        (update_onboarding ⟨[⟨1, "e", "h", "User", none, none, true⟩], [], 2, 1⟩ 1).1 1) ∧
    flagFalseConta (applyOp ⟨[⟨1, "e", "h", "User", none, none, false⟩], [], 2, 1⟩
        (Op.opRegister "f" "p")) 1 ∧
    onboarding ⟨[⟨1, "e", "h", "N", none, none, false⟩], [], 2, 1⟩ 1 (some "N") =
      some (⟨[⟨1, "e", "h", "N", none, none, false⟩], [], 2, 1⟩, 200) ∧
    update_onboarding ⟨[⟨1, "e", "h", "User", none, none, false⟩], [], 2, 1⟩ 1 =
      (⟨[⟨1, "e", "h", "User", none, none, false⟩], [], 2, 1⟩, 200) :=
  ⟨C5_onboarding_flag_state_machine.1 emptyDB "e" "p"
      ⟨1, "e", generate_password_hash "p", "User", none, none, true⟩ (by decide),
   C5_onboarding_flag_state_machine.2.1 ⟨[⟨1, "e", "h", "User", none, none, true⟩], [], 2, 1⟩
      1 (some "N") ⟨1, "e", "h", "User", none, none, true⟩ (by decide),
   C5_onboarding_flag_state_machine.2.2.1 ⟨[⟨1, "e", "h", "User", none, none, true⟩], [], 2, 1⟩
      1 ⟨1, "e", "h", "User", none, none, true⟩ (by decide),
   C5_onboarding_flag_state_machine.2.2.2.1 ⟨[⟨1, "e", "h", "User", none, none, false⟩], [], 2, 1⟩
      (Op.opRegister "f" "p") 1 (by decide)
      ⟨⟨1, "e", "h", "User", none, none, false⟩, by decide, rfl⟩
      (fun u hu h1 => by
        have hu' : u ∈ [(⟨1, "e", "h", "User", none, none, false⟩ : Usuario)] := hu
        rw [List.mem_singleton] at hu'
        subst hu'
        rfl),
   C5_onboarding_flag_state_machine.2.2.2.2.1
      ⟨[⟨1, "e", "h", "N", none, none, false⟩], [], 2, 1⟩
      ⟨[⟨1, "e", "h", "N", none, none, false⟩], [], 2, 1⟩ 1 (some "N") (by decide),
   C5_onboarding_flag_state_machine.2.2.2.2.2
      ⟨[⟨1, "e", "h", "User", none, none, false⟩], [], 2, 1⟩
      ⟨[⟨1, "e", "h", "User", none, none, false⟩], [], 2, 1⟩ 1 (by decide)⟩

/-- C6: `/registros` is a pure read — the state after the operation is the
state before, so a repeated call without intervening writes returns the
identical result — producing at most 11 views, namely the views of the 11
most recent entries of the account selected by date descending and then
reversed to oldest-first; the selected entries carry ascending dates, and
every returned view is the view of one of the account's stored entries. -/
theorem C6_listRecent_pure_bounded_ordered (db : DB) (uid : Nat) :
    applyOp db (Op.opObterRegistros uid) = db ∧
    obter_registros (applyOp db (Op.opObterRegistros uid)) uid =
      obter_registros db uid ∧
    (obter_registros db uid).length ≤ 11 ∧
    obter_registros db uid =
      (((sortByDataDesc (registrosConta db uid)).take 11).map viewOf).reverse ∧
    ((sortByDataDesc (registrosConta db uid)).take 11).reverse.Pairwise
      (fun a b => a.data ≤ b.data) ∧
    (∀ v ∈ obter_registros db uid, ∃ r ∈ registrosConta db uid, v = viewOf r) := by
  refine ⟨rfl, rfl, ?_, rfl, ?_, ?_⟩
  · show ((((sortByDataDesc (registrosConta db uid)).take 11).map viewOf).reverse).length ≤ 11
    rw [List.length_reverse, List.length_map]
    exact List.length_take_le 11 _
  · rw [List.pairwise_reverse]
    exact List.Pairwise.sublist (List.take_sublist 11 _)
      (sortByDataDesc_pairwise (registrosConta db uid))
  · intro v hv
    have hv' : v ∈ ((sortByDataDesc (registrosConta db uid)).take 11).map viewOf :=
      List.mem_reverse.1 hv
    obtain ⟨r, hr, hvr⟩ := List.mem_map.1 hv'
    refine ⟨r, ?_, hvr.symm⟩
    have hr' : r ∈ sortByDataDesc (registrosConta db uid) :=
      List.take_subset 11 _ hr
    exact mem_sortBy.1 hr'

/-- Witness for C6: a one-entry store, on which the read leaves the state
unchanged, repeats identically, and the single returned view comes from
the stored entry. -/
theorem C6_listRecent_pure_bounded_ordered_witness :
    applyOp ⟨[], [⟨1, 5, "m", "f", none, "7", 1⟩], 1, 2⟩ (Op.opObterRegistros 1) =
      ⟨[], [⟨1, 5, "m", "f", none, "7", 1⟩], 1, 2⟩ ∧
    (obter_registros ⟨[], [⟨1, 5, "m", "f", none, "7", 1⟩], 1, 2⟩ 1).length ≤ 11 ∧
    (∃ r ∈ registrosConta ⟨[], [⟨1, 5, "m", "f", none, "7", 1⟩], 1, 2⟩ 1,
      (⟨formatData 5, "m", "f", none, "7"⟩ : RegistroView) = viewOf r) :=
  ⟨(C6_listRecent_pure_bounded_ordered ⟨[], [⟨1, 5, "m", "f", none, "7", 1⟩], 1, 2⟩ 1).1,
   (C6_listRecent_pure_bounded_ordered ⟨[], [⟨1, 5, "m", "f", none, "7", 1⟩], 1, 2⟩ 1).2.2.1,
   (C6_listRecent_pure_bounded_ordered ⟨[], [⟨1, 5, "m", "f", none, "7", 1⟩], 1, 2⟩ 1).2.2.2.2.2
     ⟨formatData 5, "m", "f", none, "7"⟩ (by decide)⟩
